import Mathlib

/-
Verification of the exprparse library (single-header C++ expression parser,
`exprparse.hpp`, namespace `exprparse`).

Modelling decisions:
* The floating-point element type `T` is modelled by `ℚ`.  Every numeric
  input appearing in the properties below (small integers, halves) is
  exactly representable in binary floating point and the operations
  `+ - * /` and the comparison `== T(0)` are exact on them, so `ℚ`
  reproduces the C++ arithmetic on all inputs considered.
* A variable cell (`std::shared_ptr<T>`) is modelled as a heap address
  `ℕ`; the heap is a function `ℕ → ℚ`.  `SetVariable` updates the heap
  at one address, exactly like `*var = value`.
* `std::map` symbol tables are modelled as association lists with
  `List.lookup`; only exact-key lookup and insert-if-absent
  (`try_emplace`) are used by the source.
* The `Status &status` reference threaded through `Node::Eval` and
  `Expression::ParseSubString` is made explicit: each function takes the
  incoming status and returns the (possibly overwritten) status.
* `ParseSubString(begin, end, status)` works on an iterator range; the
  range is modelled as a `List Char`.  The C++ recursion always recurses
  on strictly shorter ranges, so it is written with a fuel parameter
  that starts at `length + 1`; the fuel-exhaustion branch is unreachable
  for that choice.  Dereferences that the C++ performs on an empty range
  (`*begin`, `*(end-1)`) are guarded: on an empty range the guarded test
  is false and control falls through to the error branches.
* A null `std::shared_ptr<Node>` result is modelled as `none`.  The C++
  links possibly-null children and returns the node only when
  `status == Success`; a null child together with `Success` never occurs
  (every null return is accompanied by an error status), so the model
  returns `none` in that unreachable combination.
-/

namespace Exprparse

/-- Status codes (`enum Status` in `exprparse.hpp`). -/
inductive Status where
  | Success
  | Error_Variable_Already_Registered
  | Error_Function_Already_Registered
  | Error_Variable_Function_Name_Clash
  | Error_Not_Compiled
  | Error_Division_By_Zero
  | Error_Unregistered_Symbol
  | Error_Syntax_Error
  | Error_Unknown
deriving DecidableEq

/-- Operator kinds (`OperatorNode::Operator`). -/
inductive Op where
  | Add
  | Sub
  | Mul
  | Div
deriving DecidableEq

/-- AST nodes: `ConstantNode`, `VariableNode` (holding a cell address),
`OperatorNode`, `FunctionNode` (holding the `std::function<T(T)>` value). -/
inductive Node where
  | const : ℚ → Node
  | var : ℕ → Node
  | op : Op → Node → Node → Node
  | fn : (ℚ → ℚ) → Node → Node

/-- `Node::Eval(Status &status)`: the status reference is threaded
explicitly.  An operator node evaluates the left child, then the right
child, then computes; `Div` checks the right value against zero and on
zero overwrites the status and yields 0.  `FunctionNode::Eval` applies
the function to the argument's value, leaving the status as the
argument evaluation left it.  (The C++ `default:` branch of the switch
is unreachable for the four-valued enum and has no counterpart here.) -/
def evalNode (env : ℕ → ℚ) : Node → Status → ℚ × Status
  | .const v, st => (v, st)
  | .var c, st => (env c, st)
  | .op k l r, st =>
    let lres := evalNode env l st
    let rres := evalNode env r lres.2
    match k with
    | .Add => (lres.1 + rres.1, rres.2)
    | .Sub => (lres.1 - rres.1, rres.2)
    | .Mul => (lres.1 * rres.1, rres.2)
    | .Div =>
      if rres.1 = 0 then (0, .Error_Division_By_Zero)
      else (lres.1 / rres.1, rres.2)
  | .fn f a, st =>
    let ares := evalNode env a st
    (f ares.1, ares.2)

/-- One step of the `bracket_depth` update in the scanning loops of
`ParseSubString`: `if(*it == '(') depth++; if(*it == ')') depth--;`. -/
def bumpDepth (d : ℤ) (c : Char) : ℤ :=
  let d1 := if c = '(' then d + 1 else d
  if c = ')' then d1 - 1 else d1

/-- Bracket depth after scanning a whole span (the loop-exit value of
`bracket_depth` when no operator was found). -/
def totalDepth : List Char → ℤ → ℤ
  | [], d => d
  | c :: rest, d => totalDepth rest (bumpDepth d c)

/-- The scanning loops of `ParseSubString`: walk the span updating the
depth and stop at the first character that lies at depth 0 (depth taken
after the update for the current character) and belongs to `targets`.
Returns the part before the hit, the hit character and the part after,
or `none` when the span is exhausted. -/
def findSplit (targets : List Char) : List Char → ℤ → Option (List Char × Char × List Char)
  | [], _ => none
  | c :: rest, d =>
    let d2 := bumpDepth d c
    if d2 = 0 ∧ c ∈ targets then some ([], c, rest)
    else
      match findSplit targets rest d2 with
      | some (l, o, r) => some (c :: l, o, r)
      | none => none

/-- Targets of the first scanning loop (`'+'`, `'-'`). -/
def pmChars : List Char := ['+', '-']

/-- Targets of the second scanning loop (`'*'`, `'/'`). -/
def mdChars : List Char := ['*', '/']

/-- Numeric value of a digit run (most significant first). -/
def digitsToNat (ds : List Char) : ℕ :=
  List.foldl (fun acc c => 10 * acc + (c.toNat - '0'.toNat)) 0 ds

/-- Model of `std::stringstream >> value` for the floating element type
(the constant check of `ParseSubString`): extraction consumes an
optional sign, an integer digit run and an optional fraction, succeeds
whenever at least one digit was consumed, and ignores whatever trails
the consumed prefix; with no digits it fails.  Exponents, hexadecimal
floats and `inf`/`nan` forms never occur in any span considered by the
properties below and are not modelled; on every span used in a theorem
in this file the mainstream `num_get` implementations agree with this
model. -/
def parseNumber (s : List Char) : Option ℚ :=
  let sgn : ℚ := if s.head? = some '-' then -1 else 1
  let s1 := if s.head? = some '+' ∨ s.head? = some '-' then s.tail else s
  let ip := s1.takeWhile Char.isDigit
  let s2 := s1.dropWhile Char.isDigit
  let fp := if s2.head? = some '.' then s2.tail.takeWhile Char.isDigit else []
  if ip = [] ∧ fp = [] then none
  else some (sgn * ((digitsToNat ip : ℚ) + (digitsToNat fp : ℚ) / (10 : ℚ) ^ fp.length))

/-- The `switch(operator_symbol)` of `ParseSubString`; only called on a
character produced by the scans, i.e. one of `+ - * /`. -/
def charToOp (c : Char) : Op :=
  if c = '+' then Op.Add
  else if c = '-' then Op.Sub
  else if c = '*' then Op.Mul
  else Op.Div

/-- The operator branch of `ParseSubString` (`operator_symbol != '\0'`),
with `rec` standing for the recursive call on a sub-span.  An empty left
part is replaced by `Constant(0)` when the operator is `-`; with any
other operator the branch fails with a syntax error before parsing the
right part.  Otherwise both sides are parsed (the right side
unconditionally, with the status left by the left side), and the node is
returned only when the final status is `Success`. -/
def opBranch (rec : List Char → Status → Option Node × Status)
    (l : List Char) (c : Char) (r : List Char) (st : Status) : Option Node × Status :=
  if l = [] ∧ c ≠ '-' then (none, .Error_Syntax_Error)
  else
    let lres := if l = [] then (some (Node.const 0), st) else rec l st
    let rres := rec r lres.2
    if rres.2 = .Success then
      match lres.1, rres.1 with
      | some ln, some rn => (some (.op (charToOp c) ln rn), rres.2)
      | _, _ => (none, rres.2)
    else (none, rres.2)

/-- The atomic branch of `ParseSubString` (no operator found; the
bracket-balance check has already passed): strip one layer of brackets
when the span starts with `(` and ends with `)` (empty interior gives
`Constant(0)`); otherwise try the constant check, then the variable
lookup, then the function-call form — the span must end in `)`, the
name is the text before the first `(`, a span with no `(` is a syntax
error, an unregistered name is `Error_Unregistered_Symbol`.  The
character tests that the C++ performs unguarded (`*begin`, `*(end-1)`)
are expressed through `head?`/`getLast?`, so on an empty span they fail
and control reaches the error branches. -/
def atomicBranch (syms : List (String × ℕ)) (funcs : List (String × (ℚ → ℚ)))
    (rec : List Char → Status → Option Node × Status)
    (s : List Char) (st : Status) : Option Node × Status :=
  if s.head? = some '(' ∧ s.getLast? = some ')' then
    let interior := (s.drop 1).dropLast
    if interior = [] then (some (.const 0), st)
    else rec interior st
  else
    match parseNumber s with
    | some v => (some (.const v), st)
    | none =>
      match List.lookup (String.mk s) syms with
      | some cell => (some (.var cell), st)
      | none =>
        if s.getLast? ≠ some ')' then (none, .Error_Syntax_Error)
        else
          let name := s.takeWhile (fun c => c ≠ '(')
          if name.length = s.length then (none, .Error_Syntax_Error)
          else
            match List.lookup (String.mk name) funcs with
            | some f =>
              let ares := rec ((s.drop (name.length + 1)).dropLast) st
              if ares.2 = .Success then
                match ares.1 with
                | some a => (some (.fn f a), ares.2)
                | none => (none, ares.2)
              else (none, ares.2)
            | none => (none, .Error_Unregistered_Symbol)

/-- `Expression::ParseSubString`, with explicit fuel (strictly larger
than the span length at every call, see `Parse`): scan for a depth-0
`+`/`-` (leftmost hit wins); if none was found, fail when the loop-exit
bracket depth is non-zero, otherwise scan for a depth-0 `*`/`/`; split
at the found operator, or fall through to the atomic branch. -/
def parseSubF (syms : List (String × ℕ)) (funcs : List (String × (ℚ → ℚ))) :
    ℕ → List Char → Status → Option Node × Status
  | 0, _, _ => (none, .Error_Unknown)
  | fuel + 1, s, st =>
    match findSplit pmChars s 0 with
    | some (l, c, r) => opBranch (parseSubF syms funcs fuel) l c r st
    | none =>
      if totalDepth s 0 ≠ 0 then (none, .Error_Syntax_Error)
      else
        match findSplit mdChars s 0 with
        | some (l, c, r) => opBranch (parseSubF syms funcs fuel) l c r st
        | none => atomicBranch syms funcs (parseSubF syms funcs fuel) s st

/-- `Expression<T>`: the two symbol maps and the optional compiled tree. -/
structure Expression where
  symbols : List (String × ℕ)
  functions : List (String × (ℚ → ℚ))
  base : Option Node

/-- A freshly constructed `Expression` (empty maps, no tree). -/
def Expression.empty : Expression := ⟨[], [], none⟩

/-- `Expression::RegisterVariable`: a name already mapping to a function
is a name clash; otherwise `try_emplace` into `_symbols` — failure when
the key exists, insertion otherwise.  (In the source the inserted value
is spelled `value` while the parameter is named `variable`; the
insert-if-absent behaviour is what the two status codes observe.) -/
def RegisterVariable (e : Expression) (name : String) (cell : ℕ) : Expression × Status :=
  if (List.lookup name e.functions).isSome then (e, .Error_Variable_Function_Name_Clash)
  else if (List.lookup name e.symbols).isSome then (e, .Error_Variable_Already_Registered)
  else ({ e with symbols := e.symbols ++ [(name, cell)] }, .Success)

/-- `Expression::RegisterFunction`: symmetric to `RegisterVariable`. -/
def RegisterFunction (e : Expression) (name : String) (f : ℚ → ℚ) : Expression × Status :=
  if (List.lookup name e.symbols).isSome then (e, .Error_Variable_Function_Name_Clash)
  else if (List.lookup name e.functions).isSome then (e, .Error_Function_Already_Registered)
  else ({ e with functions := e.functions ++ [(name, f)] }, .Success)

/-- `Expression::Parse`: remove spaces, parse the whole span starting
from `Success`, store the produced tree, and clear it again when the
status is not `Success`. -/
def Parse (e : Expression) (input : String) : Expression × Status :=
  let s := input.toList.filter (fun c => c ≠ ' ')
  let res := parseSubF e.symbols e.functions (s.length + 1) s .Success
  ({ e with base := if res.2 = .Success then res.1 else none }, res.2)

/-- `Expression::Eval`: `(0, Error_Not_Compiled)` without a tree,
otherwise the root's `Eval` started from `Success`. -/
def Eval (e : Expression) (env : ℕ → ℚ) : ℚ × Status :=
  match e.base with
  | none => (0, .Error_Not_Compiled)
  | some n => evalNode env n .Success

/-- `SetVariable(var, value)` (`*var = value`): update the heap at the
cell's address. -/
def SetVariable (env : ℕ → ℚ) (cell : ℕ) (v : ℚ) : ℕ → ℚ :=
  fun c => if c = cell then v else env c

/-! Helper layer: the rational value carried by a successfully parsed
literal span, and closed-form parse results for the concrete inputs of
the properties (each proved by definitional unfolding of the parser). -/

/-- The value stored in the `ConstantNode` built from span `s`. -/
def litQ (s : List Char) : ℚ := (parseNumber s).getD 0

lemma litQ_0 : litQ ['0'] = 0 := by
  norm_num +decide [litQ, parseNumber, List.takeWhile, List.dropWhile, Char.isDigit,
    show digitsToNat ['0'] = 0 from by decide, show digitsToNat [] = 0 from rfl]

lemma litQ_1 : litQ ['1'] = 1 := by
  norm_num +decide [litQ, parseNumber, List.takeWhile, List.dropWhile, Char.isDigit,
    show digitsToNat ['1'] = 1 from by decide, show digitsToNat [] = 0 from rfl]

lemma litQ_2 : litQ ['2'] = 2 := by
  norm_num +decide [litQ, parseNumber, List.takeWhile, List.dropWhile, Char.isDigit,
    show digitsToNat ['2'] = 2 from by decide, show digitsToNat [] = 0 from rfl]

lemma litQ_3 : litQ ['3'] = 3 := by
  norm_num +decide [litQ, parseNumber, List.takeWhile, List.dropWhile, Char.isDigit,
    show digitsToNat ['3'] = 3 from by decide, show digitsToNat [] = 0 from rfl]

lemma litQ_4 : litQ ['4'] = 4 := by
  norm_num +decide [litQ, parseNumber, List.takeWhile, List.dropWhile, Char.isDigit,
    show digitsToNat ['4'] = 4 from by decide, show digitsToNat [] = 0 from rfl]

lemma litQ_8 : litQ ['8'] = 8 := by
  norm_num +decide [litQ, parseNumber, List.takeWhile, List.dropWhile, Char.isDigit,
    show digitsToNat ['8'] = 8 from by decide, show digitsToNat [] = 0 from rfl]

lemma litQ_10 : litQ ['1', '0'] = 10 := by
  norm_num +decide [litQ, parseNumber, List.takeWhile, List.dropWhile, Char.isDigit,
    show digitsToNat ['1', '0'] = 10 from by decide, show digitsToNat [] = 0 from rfl]

lemma litQ_2m : litQ ['2', 'm'] = 2 := by
  norm_num +decide [litQ, parseNumber, List.takeWhile, List.dropWhile, Char.isDigit,
    show digitsToNat ['2'] = 2 from by decide, show digitsToNat [] = 0 from rfl]

lemma parse_prec :
    Parse Expression.empty "2 + 3 * 4" =
      ({ symbols := [], functions := [],
         base := some (.op .Add (.const (litQ ['2']))
           (.op .Mul (.const (litQ ['3'])) (.const (litQ ['4'])))) }, .Success) := rfl

lemma parse_brackets :
    Parse Expression.empty "(2+3)*4" =
      ({ symbols := [], functions := [],
         base := some (.op .Mul (.op .Add (.const (litQ ['2'])) (.const (litQ ['3'])))
           (.const (litQ ['4']))) }, .Success) := rfl

lemma parse_chain_minus :
    Parse Expression.empty "10-3-2" =
      ({ symbols := [], functions := [],
         base := some (.op .Sub (.const (litQ ['1', '0']))
           (.op .Sub (.const (litQ ['3'])) (.const (litQ ['2'])))) }, .Success) := rfl

lemma parse_chain_div :
    Parse Expression.empty "8/4/2" =
      ({ symbols := [], functions := [],
         base := some (.op .Div (.const (litQ ['8']))
           (.op .Div (.const (litQ ['4'])) (.const (litQ ['2'])))) }, .Success) := rfl

lemma parse_one_div_zero :
    Parse Expression.empty "1/0" =
      ({ symbols := [], functions := [],
         base := some (.op .Div (.const (litQ ['1'])) (.const (litQ ['0']))) }, .Success) := rfl

lemma parse_one_div_x :
    Parse ⟨[("x", 0)], [], none⟩ "1/x" =
      ({ symbols := [("x", 0)], functions := [],
         base := some (.op .Div (.const (litQ ['1'])) (.var 0)) }, .Success) := rfl

lemma parse_x_times_two :
    Parse ⟨[("x", 0)], [], none⟩ "x*2" =
      ({ symbols := [("x", 0)], functions := [],
         base := some (.op .Mul (.var 0) (.const (litQ ['2']))) }, .Success) := rfl

lemma parse_neg_example :
    Parse ⟨[("x", 0), ("y", 1), ("z", 2)], [], none⟩ "-(2*x+y)/z" =
      ({ symbols := [("x", 0), ("y", 1), ("z", 2)], functions := [],
         base := some (.op .Sub (.const 0)
           (.op .Div
             (.op .Add (.op .Mul (.const (litQ ['2'])) (.var 0)) (.var 1))
             (.var 2))) }, .Success) := rfl

lemma parse_two_m :
    Parse Expression.empty "2m" =
      ({ symbols := [], functions := [],
         base := some (.const (litQ ['2', 'm'])) }, .Success) := rfl

lemma parse_one :
    Parse Expression.empty "1" =
      ({ symbols := [], functions := [],
         base := some (.const (litQ ['1'])) }, .Success) := rfl

lemma parse_paren_fail :
    Parse (Parse Expression.empty "1").1 "(" =
      ({ symbols := [], functions := [], base := none }, .Error_Syntax_Error) := rfl

lemma parse_two_after :
    Parse (Parse Expression.empty "1").1 "2" =
      ({ symbols := [], functions := [],
         base := some (.const (litQ ['2'])) }, .Success) := rfl

/-! Helper layer: one-step unfolding of `parseSubF` guided by the
outcome of the two operator scans, and the characterisation of the scan
as the leftmost depth-0 hit. -/

lemma parseSubF_pm_step (syms : List (String × ℕ)) (funcs : List (String × (ℚ → ℚ)))
    (fuel : ℕ) (s : List Char) (st : Status) (l : List Char) (c : Char) (r : List Char)
    (h : findSplit pmChars s 0 = some (l, c, r)) :
    parseSubF syms funcs (fuel + 1) s st = opBranch (parseSubF syms funcs fuel) l c r st := by
  simp only [parseSubF, h]

lemma parseSubF_md_step (syms : List (String × ℕ)) (funcs : List (String × (ℚ → ℚ)))
    (fuel : ℕ) (s : List Char) (st : Status) (l : List Char) (c : Char) (r : List Char)
    (h1 : findSplit pmChars s 0 = none) (h2 : totalDepth s 0 = 0)
    (h3 : findSplit mdChars s 0 = some (l, c, r)) :
    parseSubF syms funcs (fuel + 1) s st = opBranch (parseSubF syms funcs fuel) l c r st := by
  simp only [parseSubF, h1, h2, h3, ne_eq, not_true_eq_false, if_false]

lemma parseSubF_atomic_step (syms : List (String × ℕ)) (funcs : List (String × (ℚ → ℚ)))
    (fuel : ℕ) (s : List Char) (st : Status)
    (h1 : findSplit pmChars s 0 = none) (h2 : totalDepth s 0 = 0)
    (h3 : findSplit mdChars s 0 = none) :
    parseSubF syms funcs (fuel + 1) s st =
      atomicBranch syms funcs (parseSubF syms funcs fuel) s st := by
  simp only [parseSubF, h1, h2, h3, ne_eq, not_true_eq_false, if_false]

lemma totalDepth_append (a b : List Char) (d : ℤ) :
    totalDepth (a ++ b) d = totalDepth b (totalDepth a d) := by
  induction a generalizing d with
  | nil => rfl
  | cons c rest ih => exact ih (bumpDepth d c)

lemma bumpDepth_of_ne (d : ℤ) (c : Char) (h1 : c ≠ '(') (h2 : c ≠ ')') :
    bumpDepth d c = d := by
  simp [bumpDepth, h1, h2]

lemma findSplit_some_spec (ts : List Char) (hts : ∀ c ∈ ts, c ≠ '(' ∧ c ≠ ')') :
    ∀ s d0 l c r, findSplit ts s d0 = some (l, c, r) →
      s = l ++ c :: r ∧ c ∈ ts ∧ totalDepth l d0 = 0 ∧
      ∀ l1 d l2, l = l1 ++ d :: l2 → d ∈ ts → totalDepth l1 d0 ≠ 0 := by
  intro s
  induction s with
  | nil => intro d0 l c r h; simp [findSplit] at h
  | cons c0 rest ih =>
    intro d0 l c r h
    simp only [findSplit] at h
    by_cases hc : bumpDepth d0 c0 = 0 ∧ c0 ∈ ts
    · rw [if_pos hc] at h
      obtain ⟨rfl, rfl, rfl⟩ : ([] : List Char) = l ∧ c0 = c ∧ rest = r := by
        simpa using h
      refine ⟨rfl, hc.2, ?_, ?_⟩
      · have hb := bumpDepth_of_ne d0 c0 (hts c0 hc.2).1 (hts c0 hc.2).2
        have := hc.1
        rw [hb] at this
        simpa [totalDepth] using this
      · intro l1 d l2 hl
        exact absurd hl (by simp)
    · rw [if_neg hc] at h
      cases hf : findSplit ts rest (bumpDepth d0 c0) with
      | none => rw [hf] at h; simp at h
      | some lcr =>
        obtain ⟨l', c', r'⟩ := lcr
        rw [hf] at h
        obtain ⟨rfl, rfl, rfl⟩ : c0 :: l' = l ∧ c' = c ∧ r' = r := by
          simpa using h
        obtain ⟨hs, hcts, hdep, hmin⟩ := ih (bumpDepth d0 c0) l' c' r' hf
        refine ⟨by rw [List.cons_append, ← hs], hcts, ?_, ?_⟩
        · simpa [totalDepth] using hdep
        · intro l1 d l2 hl hd
          cases l1 with
          | nil =>
            obtain ⟨rfl, -⟩ : c0 = d ∧ l' = l2 := by simpa using hl
            have hb := bumpDepth_of_ne d0 c0 (hts c0 hd).1 (hts c0 hd).2
            have hne : bumpDepth d0 c0 ≠ 0 := fun h0 => hc ⟨h0, hd⟩
            rw [hb] at hne
            simpa [totalDepth] using hne
          | cons x xs =>
            obtain ⟨rfl, hxs⟩ : c0 = x ∧ l' = xs ++ d :: l2 := by simpa using hl
            have := hmin xs d l2 hxs hd
            simpa [totalDepth] using this

lemma findSplit_none_spec (ts : List Char) (hts : ∀ c ∈ ts, c ≠ '(' ∧ c ≠ ')') :
    ∀ s d0, findSplit ts s d0 = none →
      ∀ l1 d l2, s = l1 ++ d :: l2 → d ∈ ts → totalDepth l1 d0 ≠ 0 := by
  intro s
  induction s with
  | nil =>
    intro d0 _ l1 d l2 hl
    exact absurd hl (by simp)
  | cons c0 rest ih =>
    intro d0 h l1 d l2 hl hd
    simp only [findSplit] at h
    by_cases hc : bumpDepth d0 c0 = 0 ∧ c0 ∈ ts
    · rw [if_pos hc] at h; simp at h
    · rw [if_neg hc] at h
      cases hf : findSplit ts rest (bumpDepth d0 c0) with
      | some lcr => rw [hf] at h; obtain ⟨a, b, c⟩ := lcr; simp at h
      | none =>
        cases l1 with
        | nil =>
          obtain ⟨rfl, -⟩ : c0 = d ∧ rest = l2 := by simpa using hl
          have hb := bumpDepth_of_ne d0 c0 (hts c0 hd).1 (hts c0 hd).2
          have hne : bumpDepth d0 c0 ≠ 0 := fun h0 => hc ⟨h0, hd⟩
          rw [hb] at hne
          simpa [totalDepth] using hne
        | cons x xs =>
          obtain ⟨rfl, hxs⟩ : c0 = x ∧ rest = xs ++ d :: l2 := by simpa using hl
          have := ih (bumpDepth d0 c0) hf xs d l2 hxs hd
          simpa [totalDepth] using this

/-! Helper layer: evaluation of the concrete parse trees, and the
all-or-nothing behaviour of `Parse`. -/

lemma evalEx_prec : Eval (Parse Expression.empty "2 + 3 * 4").1 (fun _ => 0) = (14, .Success) := by
  rw [parse_prec]
  simp only [Eval, evalNode, litQ_2, litQ_3, litQ_4]
  norm_num

lemma evalEx_brackets : Eval (Parse Expression.empty "(2+3)*4").1 (fun _ => 0) = (20, .Success) := by
  rw [parse_brackets]
  simp only [Eval, evalNode, litQ_2, litQ_3, litQ_4]
  norm_num

lemma evalEx_chain_minus : Eval (Parse Expression.empty "10-3-2").1 (fun _ => 0) = (9, .Success) := by
  rw [parse_chain_minus]
  simp only [Eval, evalNode, litQ_2, litQ_3, litQ_10]
  norm_num

lemma evalEx_chain_div : Eval (Parse Expression.empty "8/4/2").1 (fun _ => 0) = (4, .Success) := by
  rw [parse_chain_div]
  simp only [Eval, evalNode, litQ_2, litQ_4, litQ_8]
  norm_num

lemma evalEx_one_div_zero :
    Eval (Parse Expression.empty "1/0").1 (fun _ => 0) = (0, .Error_Division_By_Zero) := by
  rw [parse_one_div_zero]
  simp only [Eval, evalNode, litQ_0, litQ_1]
  norm_num

lemma evalEx_one_div_x_zero :
    Eval (Parse ⟨[("x", 0)], [], none⟩ "1/x").1 (fun _ => 0) = (0, .Error_Division_By_Zero) := by
  rw [parse_one_div_x]
  simp only [Eval, evalNode, litQ_1]
  norm_num

lemma evalEx_one_div_x_two :
    Eval (Parse ⟨[("x", 0)], [], none⟩ "1/x").1 (SetVariable (fun _ => 0) 0 2)
      = (1/2, .Success) := by
  rw [parse_one_div_x]
  simp only [Eval, evalNode, litQ_1, SetVariable]
  norm_num

lemma evalEx_x_times_two_five :
    Eval (Parse ⟨[("x", 0)], [], none⟩ "x*2").1 (SetVariable (fun _ => 0) 0 5)
      = (10, .Success) := by
  rw [parse_x_times_two]
  simp only [Eval, evalNode, litQ_2, SetVariable]
  norm_num

lemma evalEx_x_times_two_seven :
    Eval (Parse ⟨[("x", 0)], [], none⟩ "x*2").1
      (SetVariable (SetVariable (fun _ => 0) 0 5) 0 7) = (14, .Success) := by
  rw [parse_x_times_two]
  simp only [Eval, evalNode, litQ_2, SetVariable]
  norm_num

lemma evalEx_neg_example :
    Eval (Parse ⟨[("x", 0), ("y", 1), ("z", 2)], [], none⟩ "-(2*x+y)/z").1
      (SetVariable (SetVariable (SetVariable (fun _ => 0) 0 3) 1 4) 2 2)
      = (-5, .Success) := by
  rw [parse_neg_example]
  simp only [Eval, evalNode, litQ_2, SetVariable]
  norm_num

lemma evalEx_two_m : Eval (Parse Expression.empty "2m").1 (fun _ => 0) = (2, .Success) := by
  rw [parse_two_m]
  simp only [Eval, evalNode, litQ_2m]

lemma evalEx_one : Eval (Parse Expression.empty "1").1 (fun _ => 0) = (1, .Success) := by
  rw [parse_one]
  simp only [Eval, evalNode, litQ_1]

lemma evalEx_two_after :
    Eval (Parse (Parse Expression.empty "1").1 "2").1 (fun _ => 0) = (2, .Success) := by
  rw [parse_two_after]
  simp only [Eval, evalNode, litQ_2]

lemma Eval_base_none (e : Expression) (env : ℕ → ℚ) (h : e.base = none) :
    Eval e env = (0, .Error_Not_Compiled) := by
  simp [Eval, h]

lemma Parse_fail_base (e : Expression) (input : String)
    (h : (Parse e input).2 ≠ .Success) : (Parse e input).1.base = none :=
  if_neg h

/-! The claims. -/

/-- C1: the parser splits every span at the leftmost `+`/`-` found at
bracket depth 0, and only when no such character exists does it split at
the leftmost `*`/`/` at depth 0; consequently `2 + 3 * 4` evaluates to
14, `(2+3)*4` to 20, and chained same-precedence operators group
right-heavy: `10-3-2` evaluates to 9 and `8/4/2` to 4. -/
theorem C1_leftmost_split :
    (∀ s l c r, findSplit pmChars s 0 = some (l, c, r) →
       s = l ++ c :: r ∧ (c = '+' ∨ c = '-') ∧ totalDepth l 0 = 0 ∧
       ∀ l1 d l2, l = l1 ++ d :: l2 → (d = '+' ∨ d = '-') → totalDepth l1 0 ≠ 0)
  ∧ (∀ s l1 d l2, findSplit pmChars s 0 = none → s = l1 ++ d :: l2 →
       (d = '+' ∨ d = '-') → totalDepth l1 0 ≠ 0)
  ∧ (∀ s l c r, findSplit mdChars s 0 = some (l, c, r) →
       s = l ++ c :: r ∧ (c = '*' ∨ c = '/') ∧ totalDepth l 0 = 0 ∧
       ∀ l1 d l2, l = l1 ++ d :: l2 → (d = '*' ∨ d = '/') → totalDepth l1 0 ≠ 0)
  ∧ (∀ syms funcs fuel s st l c r, findSplit pmChars s 0 = some (l, c, r) →
       parseSubF syms funcs (fuel + 1) s st = opBranch (parseSubF syms funcs fuel) l c r st)
  ∧ (∀ syms funcs fuel s st l c r, findSplit pmChars s 0 = none → totalDepth s 0 = 0 →
       findSplit mdChars s 0 = some (l, c, r) →
       parseSubF syms funcs (fuel + 1) s st = opBranch (parseSubF syms funcs fuel) l c r st)
  ∧ Eval (Parse Expression.empty "2 + 3 * 4").1 (fun _ => 0) = (14, .Success)
  ∧ Eval (Parse Expression.empty "(2+3)*4").1 (fun _ => 0) = (20, .Success)
  ∧ Eval (Parse Expression.empty "10-3-2").1 (fun _ => 0) = (9, .Success)
  ∧ Eval (Parse Expression.empty "8/4/2").1 (fun _ => 0) = (4, .Success) := by
  have hpm : ∀ c ∈ pmChars, c ≠ '(' ∧ c ≠ ')' := by decide
  have hmd : ∀ c ∈ mdChars, c ≠ '(' ∧ c ≠ ')' := by decide
  have hmem_pm : ∀ c, c ∈ pmChars ↔ (c = '+' ∨ c = '-') := by
    intro c; simp [pmChars]
  have hmem_md : ∀ c, c ∈ mdChars ↔ (c = '*' ∨ c = '/') := by
    intro c; simp [mdChars]
  refine ⟨?_, ?_, ?_, ?_, ?_, evalEx_prec, evalEx_brackets, evalEx_chain_minus, evalEx_chain_div⟩
  · intro s l c r h
    obtain ⟨hs, hc, hd, hmin⟩ := findSplit_some_spec pmChars hpm s 0 l c r h
    exact ⟨hs, (hmem_pm c).1 hc, hd,
      fun l1 d l2 hl hd2 => hmin l1 d l2 hl ((hmem_pm d).2 hd2)⟩
  · intro s l1 d l2 h hs hd
    exact findSplit_none_spec pmChars hpm s 0 h l1 d l2 hs ((hmem_pm d).2 hd)
  · intro s l c r h
    obtain ⟨hs, hc, hd, hmin⟩ := findSplit_some_spec mdChars hmd s 0 l c r h
    exact ⟨hs, (hmem_md c).1 hc, hd,
      fun l1 d l2 hl hd2 => hmin l1 d l2 hl ((hmem_md d).2 hd2)⟩
  · intro syms funcs fuel s st l c r h
    exact parseSubF_pm_step syms funcs fuel s st l c r h
  · intro syms funcs fuel s st l c r h1 h2 h3
    exact parseSubF_md_step syms funcs fuel s st l c r h1 h2 h3

/-- C1 witness: the leftmost-split characterisation applied to the
concrete span `1+2`, whose scan splits at the `+`. -/
theorem C1_witness :
    (['1', '+', '2'] : List Char) = ['1'] ++ '+' :: ['2'] ∧
      ('+' = '+' ∨ '+' = '-') ∧ totalDepth ['1'] 0 = 0 :=
  have h := C1_leftmost_split.1 ['1', '+', '2'] ['1'] '+' ['2'] (by decide)
  ⟨h.1, h.2.1, h.2.2.1⟩

/-- C2: evaluating a `Div` node whose right operand evaluates to zero
overwrites the status with `Error_Division_By_Zero` and yields 0;
`Parse "1/0"` succeeds and the subsequent `Eval` reports the division by
zero; the error is produced per `Eval` call without touching the
compiled tree, so the same compiled expression evaluated after a
variable change can return `Success`. -/
theorem C2_div_by_zero :
    (∀ env l r st, (evalNode env r (evalNode env l st).2).1 = 0 →
        evalNode env (.op .Div l r) st = (0, .Error_Division_By_Zero))
  ∧ (Parse Expression.empty "1/0").2 = .Success
  ∧ Eval (Parse Expression.empty "1/0").1 (fun _ => 0) = (0, .Error_Division_By_Zero)
  ∧ Eval (Parse ⟨[("x", 0)], [], none⟩ "1/x").1 (fun _ => 0) = (0, .Error_Division_By_Zero)
  ∧ Eval (Parse ⟨[("x", 0)], [], none⟩ "1/x").1 (SetVariable (fun _ => 0) 0 2)
      = (1/2, .Success) := by
  refine ⟨?_, by decide, evalEx_one_div_zero, evalEx_one_div_x_zero, evalEx_one_div_x_two⟩
  intro env l r st h
  simp [evalNode, h]

/-- C2 witness: the division-by-zero rule applied to the concrete tree
`1/0`. -/
theorem C2_witness :
    evalNode (fun _ => 0) (.op .Div (.const 1) (.const 0)) .Success
      = (0, .Error_Division_By_Zero) :=
  C2_div_by_zero.1 (fun _ => 0) (.const 1) (.const 0) .Success (by simp [evalNode])

/-- C3: an operator node always evaluates the left child and then the
right child (the right child's evaluation starts from the status the
left child left behind, and runs even when that status is an error), it
always returns a numeric result, and the status handed to the caller is
the last one written: the right child's output status for `Add`, `Sub`
and `Mul`, overwritten by the node's own division-by-zero check for
`Div`; a `FunctionCall` node passes its argument's status through
unchanged. -/
theorem C3_status_threading :
    (∀ env l r st, evalNode env (.op .Add l r) st =
        ((evalNode env l st).1 + (evalNode env r (evalNode env l st).2).1,
         (evalNode env r (evalNode env l st).2).2))
  ∧ (∀ env l r st, evalNode env (.op .Sub l r) st =
        ((evalNode env l st).1 - (evalNode env r (evalNode env l st).2).1,
         (evalNode env r (evalNode env l st).2).2))
  ∧ (∀ env l r st, evalNode env (.op .Mul l r) st =
        ((evalNode env l st).1 * (evalNode env r (evalNode env l st).2).1,
         (evalNode env r (evalNode env l st).2).2))
  ∧ (∀ env l r st, evalNode env (.op .Div l r) st =
        (if (evalNode env r (evalNode env l st).2).1 = 0 then (0, .Error_Division_By_Zero)
         else ((evalNode env l st).1 / (evalNode env r (evalNode env l st).2).1,
               (evalNode env r (evalNode env l st).2).2)))
  ∧ (∀ env f a st, evalNode env (.fn f a) st = (f (evalNode env a st).1, (evalNode env a st).2))
  ∧ evalNode (fun _ => 0) (.op .Add (.op .Div (.const 1) (.const 0)) (.const 5)) .Success
      = (5, .Error_Division_By_Zero)
  ∧ evalNode (fun _ => 0) (.op .Div (.op .Div (.const 1) (.const 0)) (.const 2)) .Success
      = (0, .Error_Division_By_Zero) := by
  refine ⟨fun env l r st => rfl, fun env l r st => rfl, fun env l r st => rfl,
    fun env l r st => rfl, fun env f a st => rfl, ?_, ?_⟩
  · norm_num [evalNode]
  · norm_num [evalNode]

/-- C4: a `VariableNode` reads the referenced cell's value from the heap
at evaluation time; after registering `x` and parsing `x*2` once,
setting the cell to 5 makes `Eval` return 10 and then setting it to 7
makes the next `Eval` of the same compiled expression return 14. -/
theorem C4_variable_live_read :
    (∀ env cell st, evalNode env (.var cell) st = (env cell, st))
  ∧ Eval (Parse (RegisterVariable Expression.empty "x" 0).1 "x*2").1
      (SetVariable (fun _ => 0) 0 5) = (10, .Success)
  ∧ Eval (Parse (RegisterVariable Expression.empty "x" 0).1 "x*2").1
      (SetVariable (SetVariable (fun _ => 0) 0 5) 0 7) = (14, .Success) := by
  have hreg : (RegisterVariable Expression.empty "x" 0).1 = ⟨[("x", 0)], [], none⟩ := rfl
  refine ⟨fun env cell st => rfl, ?_, ?_⟩
  · rw [hreg]; exact evalEx_x_times_two_five
  · rw [hreg]; exact evalEx_x_times_two_seven

/-- C5: `Eval` on an `Expression` without a compiled tree returns
`(0, Error_Not_Compiled)`; this covers a freshly constructed expression
and any expression whose last `Parse` failed, because a failed `Parse`
clears the stored tree even when an earlier `Parse` had succeeded, while
a successful re-`Parse` replaces the tree. -/
theorem C5_not_compiled :
    (∀ syms funcs env, Eval ⟨syms, funcs, none⟩ env = (0, .Error_Not_Compiled))
  ∧ (∀ e input env, (Parse e input).2 ≠ .Success →
        Eval (Parse e input).1 env = (0, .Error_Not_Compiled))
  ∧ Eval (Parse Expression.empty "1").1 (fun _ => 0) = (1, .Success)
  ∧ (Parse (Parse Expression.empty "1").1 "(").2 = .Error_Syntax_Error
  ∧ Eval (Parse (Parse Expression.empty "1").1 "(").1 (fun _ => 0) = (0, .Error_Not_Compiled)
  ∧ Eval (Parse (Parse Expression.empty "1").1 "2").1 (fun _ => 0) = (2, .Success) := by
  refine ⟨fun syms funcs env => rfl, ?_, evalEx_one, by decide, ?_, evalEx_two_after⟩
  · intro e input env h
    exact Eval_base_none _ env (Parse_fail_base e input h)
  · rw [parse_paren_fail]; rfl

/-- C5 witness: evaluating after the failed parse of the unbalanced
input `(` reports `Error_Not_Compiled`. -/
theorem C5_witness :
    Eval (Parse Expression.empty "(").1 (fun _ => 0) = (0, .Error_Not_Compiled) :=
  C5_not_compiled.2.1 Expression.empty "(" (fun _ => 0) (by decide)

/-- C6: when the split has an empty left part, `Constant(0)` is
synthesised as the left child exactly for the operator `-`; any other
operator with an empty left part is a syntax error; `-(2*x+y)/z` with
x=3, y=4, z=2 parses and evaluates to −5. -/
theorem C6_unary_minus :
    (∀ syms funcs fuel s st c r, findSplit pmChars s 0 = some ([], c, r) → c ≠ '-' →
       parseSubF syms funcs (fuel + 1) s st = (none, .Error_Syntax_Error))
  ∧ (∀ syms funcs fuel s st r n, findSplit pmChars s 0 = some ([], '-', r) →
       (parseSubF syms funcs (fuel + 1) s st).1 = some n →
       ∃ rn, n = .op .Sub (.const 0) rn)
  ∧ (∀ syms funcs fuel s st c r, findSplit pmChars s 0 = none → totalDepth s 0 = 0 →
       findSplit mdChars s 0 = some ([], c, r) →
       parseSubF syms funcs (fuel + 1) s st = (none, .Error_Syntax_Error))
  ∧ Eval (Parse (RegisterVariable (RegisterVariable (RegisterVariable
        Expression.empty "x" 0).1 "y" 1).1 "z" 2).1 "-(2*x+y)/z").1
      (SetVariable (SetVariable (SetVariable (fun _ => 0) 0 3) 1 4) 2 2)
      = (-5, .Success) := by
  refine ⟨?_, ?_, ?_, ?_⟩
  · intro syms funcs fuel s st c r h hc
    rw [parseSubF_pm_step syms funcs fuel s st [] c r h]
    simp [opBranch, hc]
  · intro syms funcs fuel s st r n h hn
    rw [parseSubF_pm_step syms funcs fuel s st [] '-' r h] at hn
    simp [opBranch, charToOp] at hn
    rcases hres : parseSubF syms funcs fuel r st with ⟨orn, rst⟩
    rw [hres] at hn
    by_cases hst : rst = Status.Success
    · subst hst
      cases orn with
      | none => simp at hn
      | some a =>
        simp at hn
        exact ⟨a, hn.symm⟩
    · simp [hst] at hn
  · intro syms funcs fuel s st c r h1 h2 h3
    have hc : c ∈ mdChars := (findSplit_some_spec mdChars (by decide) s 0 [] c r h3).2.1
    have hcne : c ≠ '-' := by
      rcases (show c = '*' ∨ c = '/' by simpa [mdChars] using hc) with rfl | rfl <;> decide
    rw [parseSubF_md_step syms funcs fuel s st [] c r h1 h2 h3]
    simp [opBranch, hcne]
  · have hreg : (RegisterVariable (RegisterVariable (RegisterVariable
        Expression.empty "x" 0).1 "y" 1).1 "z" 2).1
        = (⟨[("x", 0), ("y", 1), ("z", 2)], [], none⟩ : Expression) := rfl
    rw [hreg]
    exact evalEx_neg_example

/-- C6 witness: the empty-left rule applied to the concrete spans `+5`
(rejected) and the `-`-split of `-5`. -/
theorem C6_witness :
    parseSubF [] [] 3 ['+', '5'] .Success = (none, .Error_Syntax_Error) :=
  C6_unary_minus.1 [] [] 2 ['+', '5'] .Success '+' ['5'] (by decide) (by decide)

/-- C7: `RegisterVariable` fails with the name-clash status when the
name is registered as a function, with `Error_Variable_Already_Registered`
when it is registered as a variable, and otherwise inserts the binding
and succeeds; `RegisterFunction` is symmetric; every failing
registration returns the expression with both maps unchanged. -/
theorem C7_registration :
    (∀ e name cell, (List.lookup name e.functions).isSome = true →
        RegisterVariable e name cell = (e, .Error_Variable_Function_Name_Clash))
  ∧ (∀ e name cell, (List.lookup name e.functions).isSome = false →
        (List.lookup name e.symbols).isSome = true →
        RegisterVariable e name cell = (e, .Error_Variable_Already_Registered))
  ∧ (∀ e name cell, (List.lookup name e.functions).isSome = false →
        (List.lookup name e.symbols).isSome = false →
        RegisterVariable e name cell =
          ({ e with symbols := e.symbols ++ [(name, cell)] }, .Success))
  ∧ (∀ e name f, (List.lookup name e.symbols).isSome = true →
        RegisterFunction e name f = (e, .Error_Variable_Function_Name_Clash))
  ∧ (∀ e name f, (List.lookup name e.symbols).isSome = false →
        (List.lookup name e.functions).isSome = true →
        RegisterFunction e name f = (e, .Error_Function_Already_Registered))
  ∧ (∀ e name f, (List.lookup name e.symbols).isSome = false →
        (List.lookup name e.functions).isSome = false →
        RegisterFunction e name f =
          ({ e with functions := e.functions ++ [(name, f)] }, .Success))
  ∧ (∀ e name cell, (RegisterVariable e name cell).2 ≠ .Success →
        (RegisterVariable e name cell).1 = e)
  ∧ (∀ e name f, (RegisterFunction e name f).2 ≠ .Success →
        (RegisterFunction e name f).1 = e)
  ∧ (RegisterVariable (RegisterVariable Expression.empty "x" 0).1 "x" 1).2
      = .Error_Variable_Already_Registered
  ∧ (RegisterFunction (RegisterVariable Expression.empty "x" 0).1 "x" (fun v => v)).2
      = .Error_Variable_Function_Name_Clash := by
  refine ⟨?_, ?_, ?_, ?_, ?_, ?_, ?_, ?_, by decide, by decide⟩
  · intro e name cell h; simp [RegisterVariable, h]
  · intro e name cell h1 h2; simp [RegisterVariable, h1, h2]
  · intro e name cell h1 h2; simp [RegisterVariable, h1, h2]
  · intro e name f h; simp [RegisterFunction, h]
  · intro e name f h1 h2; simp [RegisterFunction, h1, h2]
  · intro e name f h1 h2; simp [RegisterFunction, h1, h2]
  · intro e name cell h
    by_cases h1 : (List.lookup name e.functions).isSome
    · simp [RegisterVariable, h1]
    · by_cases h2 : (List.lookup name e.symbols).isSome
      · simp [RegisterVariable, h1, h2]
      · exfalso
        apply h
        simp [RegisterVariable, h1, h2]
  · intro e name f h
    by_cases h1 : (List.lookup name e.symbols).isSome
    · simp [RegisterFunction, h1]
    · by_cases h2 : (List.lookup name e.functions).isSome
      · simp [RegisterFunction, h1, h2]
      · exfalso
        apply h
        simp [RegisterFunction, h1, h2]

/-- C7 witness: registering `x` as a variable twice fails with
`Error_Variable_Already_Registered` and changes nothing. -/
theorem C7_witness :
    RegisterVariable (⟨[("x", 5)], [], none⟩ : Expression) "x" 7
      = (⟨[("x", 5)], [], none⟩, .Error_Variable_Already_Registered) :=
  C7_registration.2.1 ⟨[("x", 5)], [], none⟩ "x" 7 (by decide) (by decide)

/-- C8: an atomic span (no depth-0 operator, balanced brackets) that is
not a both-ends bracketed group, not a numeric literal and not a
registered variable name fails with `Error_Unregistered_Symbol` when it
is in function-call form (ends in `)`, has a `(`, and the name before
the first `(` is not a registered function), and with
`Error_Syntax_Error` otherwise; concretely, `foo(1)` with `foo`
unregistered gives `Error_Unregistered_Symbol` and bare `x` with `x`
unregistered gives `Error_Syntax_Error`. -/
theorem C8_unresolved_atoms :
    (∀ syms funcs fuel s st,
       findSplit pmChars s 0 = none → totalDepth s 0 = 0 → findSplit mdChars s 0 = none →
       ¬(s.head? = some '(' ∧ s.getLast? = some ')') →
       parseNumber s = none →
       List.lookup (String.mk s) syms = none →
       s.getLast? = some ')' →
       (s.takeWhile (fun c => c ≠ '(')).length ≠ s.length →
       List.lookup (String.mk (s.takeWhile (fun c => c ≠ '('))) funcs = none →
       parseSubF syms funcs (fuel + 1) s st = (none, .Error_Unregistered_Symbol))
  ∧ (∀ syms funcs fuel s st,
       findSplit pmChars s 0 = none → totalDepth s 0 = 0 → findSplit mdChars s 0 = none →
       ¬(s.head? = some '(' ∧ s.getLast? = some ')') →
       parseNumber s = none →
       List.lookup (String.mk s) syms = none →
       s.getLast? ≠ some ')' →
       parseSubF syms funcs (fuel + 1) s st = (none, .Error_Syntax_Error))
  ∧ (∀ syms funcs fuel s st,
       findSplit pmChars s 0 = none → totalDepth s 0 = 0 → findSplit mdChars s 0 = none →
       ¬(s.head? = some '(' ∧ s.getLast? = some ')') →
       parseNumber s = none →
       List.lookup (String.mk s) syms = none →
       s.getLast? = some ')' →
       (s.takeWhile (fun c => c ≠ '(')).length = s.length →
       parseSubF syms funcs (fuel + 1) s st = (none, .Error_Syntax_Error))
  ∧ (Parse Expression.empty "foo(1)").2 = .Error_Unregistered_Symbol
  ∧ (Parse Expression.empty "x").2 = .Error_Syntax_Error := by
  refine ⟨?_, ?_, ?_, by decide, by decide⟩
  · intro syms funcs fuel s st h1 h2 h3 h4 h5 h6 h7 h8 h9
    have h4a : ¬ s.head? = some '(' := fun hh => h4 ⟨hh, h7⟩
    simp only [ne_eq, decide_not] at h8 h9
    rw [parseSubF_atomic_step syms funcs fuel s st h1 h2 h3]
    simp [atomicBranch, h4a, h5, h6, h7, h8, h9]
  · intro syms funcs fuel s st h1 h2 h3 h4 h5 h6 h7
    rw [parseSubF_atomic_step syms funcs fuel s st h1 h2 h3]
    simp [atomicBranch, h4, h5, h6, h7]
  · intro syms funcs fuel s st h1 h2 h3 h4 h5 h6 h7 h8
    have h4a : ¬ s.head? = some '(' := fun hh => h4 ⟨hh, h7⟩
    simp only [ne_eq, decide_not] at h8
    rw [parseSubF_atomic_step syms funcs fuel s st h1 h2 h3]
    simp [atomicBranch, h4a, h5, h6, h7, h8]

/-- C8 witness: the unresolved-function rule applied to the concrete
span `foo(1)` with nothing registered. -/
theorem C8_witness :
    parseSubF [] [] 7 ['f', 'o', 'o', '(', '1', ')'] .Success
      = (none, .Error_Unregistered_Symbol) :=
  C8_unresolved_atoms.1 [] [] 6 ['f', 'o', 'o', '(', '1', ')'] .Success
    (by decide) (by decide) (by decide) (by decide) (by decide) rfl
    (by decide) (by decide) rfl

/-- C9 counterexample: the claim asserts that a span consisting of a
numeric literal followed by trailing non-numeric characters is a
compile-time error that leaves the expression uncompiled; but on `2m`
(with nothing registered) `Parse` returns `Success` and the compiled
tree is `Constant 2`, which the subsequent `Eval` returns. -/
theorem C9_counterexample :
    (Parse Expression.empty "2m").2 = .Success
  ∧ Eval (Parse Expression.empty "2m").1 (fun _ => 0) = (2, .Success) :=
  ⟨by decide, evalEx_two_m⟩

/-- C9 (amended): for an atomic non-bracketed span the parser yields a
`Constant` whenever stream extraction succeeds on the span, and
extraction succeeds whenever the span begins with a valid numeric
prefix, ignoring what trails it; so `2m` is not a compile-time error:
`Parse` returns `Success` with the tree `Constant 2`. -/
theorem C9_numeric_prefix :
    (∀ syms funcs fuel s st v,
       findSplit pmChars s 0 = none → totalDepth s 0 = 0 → findSplit mdChars s 0 = none →
       ¬(s.head? = some '(' ∧ s.getLast? = some ')') →
       parseNumber s = some v →
       parseSubF syms funcs (fuel + 1) s st = (some (.const v), st))
  ∧ parseNumber ['2', 'm'] = some 2
  ∧ (Parse Expression.empty "2m").2 = .Success
  ∧ Eval (Parse Expression.empty "2m").1 (fun _ => 0) = (2, .Success) := by
  refine ⟨?_, ?_, by decide, evalEx_two_m⟩
  · intro syms funcs fuel s st v h1 h2 h3 h4 h5
    rw [parseSubF_atomic_step syms funcs fuel s st h1 h2 h3]
    simp [atomicBranch, h4, h5]
  · rw [show parseNumber ['2', 'm'] = some (litQ ['2', 'm']) from rfl, litQ_2m]

/-- C9 witness: the numeric-prefix rule applied to the concrete span
`2m`. -/
theorem C9_witness :
    parseSubF [] [] 3 ['2', 'm'] .Success = (some (.const (litQ ['2', 'm'])), .Success) :=
  C9_numeric_prefix.1 [] [] 2 ['2', 'm'] .Success (litQ ['2', 'm'])
    (by decide) (by decide) (by decide) (by decide) rfl

lemma parseSubF_nil (syms : List (String × ℕ)) (funcs : List (String × (ℚ → ℚ)))
    (fuel : ℕ) (st : Status) (h : List.lookup (String.mk []) syms = none) :
    parseSubF syms funcs (fuel + 1) [] st = (none, .Error_Syntax_Error) := by
  rw [parseSubF_atomic_step syms funcs fuel [] st rfl rfl rfl]
  simp [atomicBranch, parseNumber, h]

/-- C10: parsing is total, every character access the C++ performs on an
empty span is guarded in the embedding and leads to the error branches,
and the degenerate inputs — the empty string, and inputs such as `1+`
or `2*` whose split produces an empty operand span — make `Parse`
report failure through a status code (assuming the empty name is not a
registered variable). -/
theorem C10_degenerate_inputs :
    (∀ syms funcs fuel st, List.lookup (String.mk []) syms = none →
       parseSubF syms funcs (fuel + 1) ([] : List Char) st = (none, .Error_Syntax_Error))
  ∧ (∀ e : Expression, List.lookup (String.mk []) e.symbols = none →
       (Parse e "").2 = .Error_Syntax_Error
       ∧ (Parse e "1+").2 = .Error_Syntax_Error
       ∧ (Parse e "2*").2 = .Error_Syntax_Error) := by
  refine ⟨fun syms funcs fuel st h => parseSubF_nil syms funcs fuel st h, ?_⟩
  intro e h
  have hnil2 : parseSubF e.symbols e.functions 2 [] Status.Success
      = (none, .Error_Syntax_Error) := parseSubF_nil e.symbols e.functions 1 .Success h
  have hone : parseSubF e.symbols e.functions 2 ['1'] Status.Success
      = (some (.const (litQ ['1'])), .Success) := rfl
  have htwo : parseSubF e.symbols e.functions 2 ['2'] Status.Success
      = (some (.const (litQ ['2'])), .Success) := rfl
  refine ⟨?_, ?_, ?_⟩
  · have h0 : (Parse e "").2
        = (parseSubF e.symbols e.functions (0 + 1) [] .Success).2 := rfl
    rw [h0, parseSubF_nil e.symbols e.functions 0 .Success h]
  · have h1 : (Parse e "1+").2
        = (parseSubF e.symbols e.functions (2 + 1) ['1', '+'] .Success).2 := rfl
    rw [h1, parseSubF_pm_step e.symbols e.functions 2 ['1', '+'] .Success ['1'] '+' []
      (by decide)]
    simp [opBranch, hone, hnil2]
  · have h2 : (Parse e "2*").2
        = (parseSubF e.symbols e.functions (2 + 1) ['2', '*'] .Success).2 := rfl
    rw [h2, parseSubF_md_step e.symbols e.functions 2 ['2', '*'] .Success ['2'] '*' []
      (by decide) (by decide) (by decide)]
    simp [opBranch, htwo, hnil2]

/-- C10 witness: parsing `1+`, whose split leaves an empty right
operand, reports a syntax error. -/
theorem C10_witness :
    (Parse Expression.empty "1+").2 = .Error_Syntax_Error :=
  (C10_degenerate_inputs.2 Expression.empty (by decide)).2.1

end Exprparse
